import Mathlib

/-!
Verification of the data-access and query layer of the video-transcription
backend (src/appF.py) against its natural-language specification.

Texts are modelled as lists of characters.  Python string primitives used by
the source (lower, strip, replace, slicing, containment) are embedded as
executable functions on character lists.  The pandas calls of the source are
embedded at the granularity the source uses them: a DataFrame is an ordered
list of rows, boolean-mask filtering is List.filter, and Series.str.contains
with its default regex interpretation is embedded for the fragment of regular
expressions the theorems touch (literal characters and the dot wildcard).
Fallible Python expressions (len of a missing value, int of a non-numeric
string, writing a missing value to a file) are embedded in the Except monad;
a Flask handler body wrapped in try/except maps an error to a 500 JSON
response, and a handler body without try/except surfaces the error as an
uncaught crash.
-/

namespace AppF

set_option maxRecDepth 8192

/-- A Python string, as its list of characters. -/
abbrev Str := List Char

/-- Python str.lower, ASCII case mapping (the data is ASCII). -/
def lowerStr (s : Str) : Str := s.map Char.toLower

/-- Tests whether pat is a leading block of s, by literal character equality. -/
def litHere : Str → Str → Bool
  | [], _ => true
  | _ :: _, [] => false
  | p :: ps, c :: cs => (p == c) && litHere ps cs

/-- Plain substring containment: pat occurs contiguously inside s.
This is the notion the specification describes for search. -/
def containsSub (pat : Str) : Str → Bool
  | [] => litHere pat []
  | c :: cs => litHere pat (c :: cs) || containsSub pat cs

/-- Regular-expression match of pat at the start of s, for the fragment of
Python regular expressions made of literal characters and the dot wildcard.
This embeds what re.search tries at one position. -/
def matchHere : Str → Str → Bool
  | [], _ => true
  | _ :: _, [] => false
  | p :: ps, c :: cs => (p == '.' || p == c) && matchHere ps cs

/-- Python re.search for the literal-and-dot fragment: the pattern matches at
some position of s.  pandas Series.str.contains uses this by default
(regex=True), which is what the source calls. -/
def reSearch (pat : Str) : Str → Bool
  | [] => matchHere pat []
  | c :: cs => matchHere pat (c :: cs) || reSearch pat cs

/-- Characters that are metacharacters of Python regular expressions.  On
patterns avoiding all of these, re.search is plain substring search. -/
def isMetaChar (c : Char) : Bool :=
  c == '.' || c == '^' || c == '$' || c == '*' || c == '+' || c == '?' ||
  c == '\x7b' || c == '\x7d' || c == '[' || c == ']' || c == '\\' ||
  c == '|' || c == '(' || c == ')'

/-- Python whitespace characters, as recognized by str.strip. -/
def isPySpace (c : Char) : Bool :=
  c == ' ' || c == '\t' || c == '\n' || c == '\r' || c == '\x0b' || c == '\x0c'

/-- Python str.strip with no argument: drop leading and trailing whitespace. -/
def pyStrip (s : Str) : Str :=
  ((s.dropWhile isPySpace).reverse.dropWhile isPySpace).reverse

/-- Worker for pyReplace; the fuel argument starts at the length of the
scanned string and bounds the recursion, so the function is structural and
kernel-evaluable.  Scans left to right, replacing each non-overlapping
occurrence of old, exactly as Python str.replace does. -/
def pyReplaceGo (old new : Str) : Nat → Str → Str
  | _, [] => []
  | 0, s => s
  | fuel + 1, c :: cs =>
    if litHere old (c :: cs) then
      new ++ pyReplaceGo old new fuel (List.drop (old.length - 1) cs)
    else
      c :: pyReplaceGo old new fuel cs

/-- Python s.replace(old, new) for non-empty old: every non-overlapping
occurrence of old in s is replaced by new, scanning left to right.  (The
source only ever calls replace with non-empty old and empty new.) -/
def pyReplace (s old new : Str) : Str := pyReplaceGo old new s.length s

/-- Python format f with a 02d specifier: decimal digits, zero-padded on the
left to a minimum width of two. -/
def pyFormat02 (n : Nat) : Str :=
  let ds := Nat.toDigits 10 n
  if ds.length < 2 then '0' :: ds else ds

/-- Error text carried by the embedded TypeError raised by len applied to a
missing (NaN, hence float) key_phrases cell. -/
def typeErrMsg : Str := "object of type float has no len()".toList

/-- Error text carried by the embedded TypeError raised when the download
handler writes a missing (NaN, hence float) key_phrases cell to a file. -/
def writeTypeErrMsg : Str := "write() argument must be str, not float".toList

/-- Error text carried by the embedded ValueError raised by int applied to a
string that is not a number. -/
def valueErrMsg : Str := "invalid literal for int() with base 10".toList

/-- Body text of the 404 response of the download endpoint. -/
def notFoundMsg : Str := "Video not found".toList

/-- Suffix of the attachment filename produced by the download endpoint. -/
def txtSuffix : Str := "_transcript.txt".toList

/-- Python int() on the strings the source feeds it: accepts a non-empty
all-digit string and parses it in base 10; anything else raises ValueError.
(Python also accepts signs and surrounding whitespace; the embedded fragment
is the one exercised by the module-number slices the theorems quantify
over.) -/
def pyInt (s : Str) : Except Str Nat :=
  if s.isEmpty then .error valueErrMsg
  else if s.all Char.isDigit then
    .ok (s.foldl (fun a c => 10 * a + (c.toNat - 48)) 0)
  else .error valueErrMsg

/-- One row of the backing CSV, as the query layer reads it.  A missing cell
(NaN in pandas) is modelled as none. -/
structure VideoRecord where
  video : Str
  transcription : Option Str
  key_phrases : Option Str
deriving DecidableEq

/-- The loaded dataset: an ordered list of rows, as iterated by the source. -/
abbrev DataFrame := List VideoRecord

/-- The configured object-storage base location (S3_BASE_URL in the source). -/
def S3_BASE_URL : Str := "https://arya-geetha-nlp.s3.us-east-1.amazonaws.com/".toList

/-- The literal ".mp4" suffix stripped from video names. -/
def dotMp4 : Str := ".mp4".toList

/-- The ellipsis marker appended to truncated transcripts. -/
def ellipsis : Str := "...".toList

/-- The module tag f"Mod{module_number:02d}" computed by get_module_videos. -/
def moduleTag (module_number : Nat) : Str :=
  'M' :: 'o' :: 'd' :: pyFormat02 module_number

/-- get_module_videos of the source: keep the rows whose video field has its
first five characters equal to the module tag
(df[df[video].str[:5] == module_prefix]). -/
def get_module_videos (df : DataFrame) (module_number : Nat) : DataFrame :=
  df.filter (fun r => r.video.take 5 == moduleTag module_number)

/-- The transcript preview expression of the source, applied to a present
key_phrases string: row[key_phrases][:200] + ellipsis when the length
exceeds 200, the text unchanged otherwise. -/
def transcript_preview (k : Str) : Str :=
  if 200 < k.length then k.take 200 ++ ellipsis else k

/-- The transcript preview expression as evaluated by Python on a cell that
may be missing: len of a NaN float raises TypeError. -/
def previewE : Option Str → Except Str Str
  | some k => .ok (transcript_preview k)
  | none => .error typeErrMsg

/-- One element of the videos array returned by the module-listing endpoint. -/
structure VideoOut where
  id : Str
  title : Str
  transcript : Str
  url : Str
deriving DecidableEq

/-- One element of the videos array returned by the search endpoint. -/
structure SearchOut where
  id : Str
  title : Str
  transcript : Str
  url : Str
  module : Str
deriving DecidableEq

/-- The title derivation of the module-listing loop:
video.replace(moduleTag, empty).replace(.mp4, empty).strip().
Python replace removes every occurrence, not only a leading or trailing
one. -/
def titleOf (module_number : Nat) (video : Str) : Str :=
  pyStrip (pyReplace (pyReplace video (moduleTag module_number) []) dotMp4 [])

/-- Builds one module-listing entry from a row; accessing a missing
key_phrases cell raises. -/
def buildVideo (module_number : Nat) (r : VideoRecord) : Except Str VideoOut :=
  match previewE r.key_phrases with
  | .error e => .error e
  | .ok t =>
    .ok ⟨r.video, titleOf module_number r.video, t, S3_BASE_URL ++ r.video⟩

/-- JSON or file body of a response. -/
inductive RespBody where
  | videosJson : List VideoOut → RespBody
  | searchJson : List SearchOut → RespBody
  | errorJson : Str → RespBody
  | fileAttachment : Str → Str → RespBody
deriving DecidableEq

/-- Outcome of one request: an HTTP response with a status code and body, or
an exception escaping the handler (no try/except around the failing code). -/
inductive HttpResult where
  | resp : Nat → RespBody → HttpResult
  | crash : Str → HttpResult
deriving DecidableEq

/-- The Python for-loop over rows building a result list in the Except monad:
the first raising row aborts the whole loop with its error. -/
def mapE {α β : Type} (f : α → Except Str β) : List α → Except Str (List β)
  | [] => .ok []
  | a :: l =>
    match f a with
    | .error e => .error e
    | .ok b =>
      match mapE f l with
      | .error e => .error e
      | .ok bs => .ok (b :: bs)

/-- The /api/videos/{module_number} handler (get_videos in the source),
given the loaded dataset: filters with get_module_videos, builds the entries,
and its try/except turns any raised error into a 500 JSON error response. -/
def get_videos (df : DataFrame) (module_number : Nat) : HttpResult :=
  match mapE (buildVideo module_number) (get_module_videos df module_number) with
  | .ok vs => .resp 200 (.videosJson vs)
  | .error e => .resp 500 (.errorJson e)

/-- The search mask of the source for one row:
df[video].str.lower().str.contains(query, na=False) or the same over
key_phrases; na=False makes a missing cell non-matching. -/
def searchMask (query : Str) (r : VideoRecord) : Bool :=
  reSearch query (lowerStr r.video) ||
    (match r.key_phrases with
     | some k => reSearch query (lowerStr k)
     | none => false)

/-- The title derivation of the search loop: the module tag is rebuilt from
the two characters of the video name at offset 3 (video_name[3:5]), then
removed everywhere along with .mp4, then the name is stripped. -/
def searchTitleOf (video : Str) : Str :=
  pyStrip (pyReplace (pyReplace video
    (('M' :: 'o' :: 'd' :: []) ++ ((video.drop 3).take 2)) []) dotMp4 [])

/-- The human-readable module label f"Module {int(module_num)}". -/
def moduleLabelOf (mn : Nat) : Str := "Module ".toList ++ Nat.toDigits 10 mn

/-- Builds one search entry from a matching row, in the evaluation order of
the source dict literal: the transcript preview (which raises on a missing
key_phrases) is evaluated before int(module_num) for the module label. -/
def buildSearch (r : VideoRecord) : Except Str SearchOut :=
  match previewE r.key_phrases with
  | .error e => .error e
  | .ok t =>
    match pyInt ((r.video.drop 3).take 2) with
    | .error e => .error e
    | .ok mn =>
      .ok ⟨r.video, searchTitleOf r.video, t, S3_BASE_URL ++ r.video,
           moduleLabelOf mn⟩

/-- The /api/search handler (search_videos in the source), given the loaded
dataset and the raw query parameter: lowercases the query, returns an empty
list for a falsy (empty) query, otherwise filters with the mask and builds
the entries; its try/except turns any raised error into a 500 JSON error
response. -/
def search_videos (df : DataFrame) (q : Str) : HttpResult :=
  if (lowerStr q).isEmpty then .resp 200 (.searchJson [])
  else
    match mapE buildSearch (df.filter (searchMask (lowerStr q))) with
    | .ok vs => .resp 200 (.searchJson vs)
    | .error e => .resp 500 (.errorJson e)

/-- The /api/download/{video_id} handler (download_transcript in the source),
given the loaded dataset: exact equality filter on the video field, 404 JSON
error when no row matches, otherwise the first matching row has its
key_phrases written to a file and streamed back under the name
{video_id}_transcript.txt.  The handler has no try/except, so writing a
missing key_phrases cell raises out of the handler. -/
def download_transcript (df : DataFrame) (video_id : Str) : HttpResult :=
  match df.filter (fun r => r.video == video_id) with
  | [] => .resp 404 (.errorJson notFoundMsg)
  | r :: _ =>
    match r.key_phrases with
    | some t => .resp 200 (.fileAttachment (video_id ++ txtSuffix) t)
    | none => .crash writeTypeErrMsg

/-- The raw parse of the backing CSV as pandas delivers it to load_data: the
column names and the grid of cells (none models NaN). -/
structure Frame where
  columns : List String
  rows : List (List (Option String))
deriving DecidableEq

/-- The empty DataFrame the except-branch of load_data constructs, with the
three expected columns. -/
def emptyFrame : Frame :=
  { columns := ["video", "transcription", "key_phrases"], rows := [] }

/-- The name of the video column, accessed by the debug prints of load_data. -/
def videoColName : String := "video"

/-- load_data of the source.  Reading and parsing the file happens outside
the embedding and arrives as an Except value: an error input models any
read or parse exception of pd.read_csv (missing file, malformed rows).  The
try-block then prints df[video] slices, so a parsed table without a video
column raises KeyError inside the try as well; the except-branch returns the
empty DataFrame with the three expected columns.  A parsed table that does
have a video column is returned unchanged. -/
def load_data (input : Except String Frame) : Frame :=
  match input with
  | .error _ => emptyFrame
  | .ok df => if df.columns.contains videoColName then df else emptyFrame

/-- Specification-side module tag: the word Mod followed by the module number
zero-padded to exactly two digits, written directly from the digits of n. -/
def specModuleTag (n : Nat) : Str :=
  'M' :: 'o' :: 'd' :: Nat.digitChar (n / 10) :: Nat.digitChar (n % 10) :: []

/-- Specification-side search predicate: the lowercased query occurs as a
plain contiguous substring of the lowercased video field or of the lowercased
key_phrases field. -/
def specSearchMatch (query : Str) (r : VideoRecord) : Bool :=
  containsSub query (lowerStr r.video) ||
    (match r.key_phrases with
     | some k => containsSub query (lowerStr k)
     | none => false)

/-- Specification-side removal of a leading occurrence only. -/
def dropLeadOnce (p s : Str) : Str :=
  if litHere p s then s.drop p.length else s

/-- Specification-side removal of a trailing occurrence only. -/
def dropTailOnce (suf s : Str) : Str :=
  if litHere suf.reverse s.reverse then s.take (s.length - suf.length) else s

/-- The title derivation as claim C5 words it: remove only a leading module
tag and only a trailing .mp4, then strip whitespace. -/
def specTitleOnce (n : Nat) (v : Str) : Str :=
  pyStrip (dropTailOnce dotMp4 (dropLeadOnce (specModuleTag n) v))

/-- Well-formedness of a video name for the search entry builder: the
two-character slice at offset 3 is non-empty and all digits, so that
int(module_num) succeeds. -/
def moduleDigitsOk (v : Str) : Bool :=
  let m := (v.drop 3).take 2
  !m.isEmpty && m.all Char.isDigit

/-! Concrete data used by witnesses and counterexamples. -/

/-- The video name of the worked example of the specification. -/
def exVideo : Str := "Mod01_WhatIsML.mp4".toList

/-- The key_phrases text of the worked example of the specification. -/
def exKey : Str := "Supervised learning basics".toList

/-- The dataset row of the worked example of the specification. -/
def exRec : VideoRecord := ⟨exVideo, some exKey, some exKey⟩

/-- The entry the module-listing endpoint builds for the worked example. -/
def exOut : VideoOut :=
  ⟨exVideo, "_WhatIsML".toList, exKey, S3_BASE_URL ++ exVideo⟩

/-- The entry the search endpoint builds for the worked example. -/
def exSearchOut : SearchOut :=
  ⟨exVideo, "_WhatIsML".toList, exKey, S3_BASE_URL ++ exVideo, "Module 1".toList⟩

/-- A dataset mixing rows of two modules and one row of neither, to witness
that module filtering keeps exactly its own rows in order. -/
def wdf : DataFrame :=
  [exRec,
   ⟨"Mod02_Advanced.mp4".toList, some ("t".toList), some ("t".toList)⟩,
   ⟨"Intro.mp4".toList, some ("t".toList), some ("t".toList)⟩,
   ⟨"Mod01_Tail.mp4".toList, some ("u".toList), some ("u".toList)⟩]

/-- A row whose video name contains the pattern a.b only up to the regex dot
wildcard, never as a plain substring. -/
def cdf2 : DataFrame :=
  [⟨"Mod01_axb.mp4".toList, some ("k".toList), some ("k".toList)⟩]

/-- The entry search builds for the cdf2 row. -/
def cOut2 : SearchOut :=
  ⟨"Mod01_axb.mp4".toList, "_axb".toList, "k".toList,
   S3_BASE_URL ++ "Mod01_axb.mp4".toList, "Module 1".toList⟩

/-- A row whose key_phrases contains a run of three spaces. -/
def df3 : DataFrame :=
  [⟨"Mod01_a.mp4".toList, some ("x   y".toList), some ("x   y".toList)⟩]

/-- The entry search builds for the df3 row. -/
def out3 : SearchOut :=
  ⟨"Mod01_a.mp4".toList, "_a".toList, "x   y".toList,
   S3_BASE_URL ++ "Mod01_a.mp4".toList, "Module 1".toList⟩

/-- A video name repeating its module tag away from the front. -/
def v5 : Str := "Mod01_Mod01_Extra.mp4".toList

/-- A dataset holding the repeated-tag video. -/
def cdf5 : DataFrame := [⟨v5, some ("k".toList), some ("k".toList)⟩]

/-- The entry the module-listing endpoint builds for the repeated-tag video:
both tag occurrences are removed by replace. -/
def out5 : VideoOut :=
  ⟨v5, "__Extra".toList, "k".toList, S3_BASE_URL ++ v5⟩

/-- A dataset holding one video whose name differs from a query only in
letter case. -/
def cdf6 : DataFrame :=
  [⟨"Mod01_Intro.mp4".toList, some ("k".toList), some ("k".toList)⟩]

/-- A dataset whose only row has a missing key_phrases cell. -/
def cdf9 : DataFrame := [⟨"v.mp4".toList, none, none⟩]

/-- A dataset whose only row has a missing key_phrases cell and a video name
matching the query abc. -/
def cdf10 : DataFrame := [⟨"abc.mp4".toList, none, none⟩]

/-- A 201-character text, one character past the preview limit. -/
def w201 : Str := List.replicate 201 'a'

/-- A parsed table with a video column but neither of the other expected
columns. -/
def frameVideoOnly : Frame :=
  { columns := ["video"], rows := [[some "Mod01_WhatIsML.mp4"]] }

/-- A parsed table with no video column. -/
def frameNoVideo : Frame :=
  { columns := ["name"], rows := [[some "x"]] }

/-- A parsed table with all three expected columns and one row. -/
def frameGood : Frame :=
  { columns := ["video", "transcription", "key_phrases"],
    rows := [[some "Mod01_WhatIsML.mp4", some "t", some "k"]] }

/-! Helper lemmas shared by the claim theorems. -/

/-- For module numbers below 100, the Python 02d format is exactly the two
decimal digits of the number. -/
theorem pyFormat02_eq_digits :
    ∀ n : Nat, n < 100 →
      pyFormat02 n = Nat.digitChar (n / 10) :: Nat.digitChar (n % 10) :: [] := by
  decide

/-- Every element of an ok result of mapE comes from an element of the input
list on which the builder succeeded with it. -/
theorem mapE_ok_mem {α β : Type} (f : α → Except Str β) :
    ∀ (l : List α) (bs : List β), mapE f l = .ok bs → ∀ b ∈ bs, ∃ a ∈ l, f a = .ok b := by
  intro l
  induction l with
  | nil =>
    intro bs h b hb
    simp [mapE] at h
    subst h
    simp at hb
  | cons a l ih =>
    intro bs h b hb
    unfold mapE at h
    cases hfa : f a with
    | error e => rw [hfa] at h; simp at h
    | ok b0 =>
      rw [hfa] at h
      cases hml : mapE f l with
      | error e => rw [hml] at h; simp at h
      | ok bs0 =>
        rw [hml] at h
        simp at h
        subst h
        rcases List.mem_cons.mp hb with hb | hb
        · exact ⟨a, List.mem_cons_self a l, by rw [hb]; exact hfa⟩
        · obtain ⟨a2, ha2, hfa2⟩ := ih bs0 hml b hb
          exact ⟨a2, List.mem_cons_of_mem a ha2, hfa2⟩

/-- mapE fails whenever the builder fails on some element of the list. -/
theorem mapE_error_of_mem {α β : Type} (f : α → Except Str β) (e : Str) :
    ∀ (l : List α) (a : α), a ∈ l → f a = .error e → ∃ e2, mapE f l = .error e2 := by
  intro l
  induction l with
  | nil => intro a ha; intro _; simp at ha
  | cons b l ih =>
    intro a ha hfa
    rcases List.mem_cons.mp ha with h | h
    · subst h
      exact ⟨e, by unfold mapE; rw [hfa]⟩
    · cases hfb : f b with
      | error e3 => exact ⟨e3, by unfold mapE; rw [hfb]⟩
      | ok b0 =>
        obtain ⟨e2, he2⟩ := ih a h hfa
        exact ⟨e2, by unfold mapE; rw [hfb, he2]⟩

/-- When the builder succeeds on every element and its results project back to
a fixed function of the inputs, mapE succeeds and the projected output list is
the mapped input list. -/
theorem mapE_ok_map {α β γ : Type} (f : α → Except Str β) (g : β → γ) (gh : α → γ) :
    ∀ l : List α, (∀ a ∈ l, ∃ b, f a = .ok b ∧ g b = gh a) →
      ∃ bs, mapE f l = .ok bs ∧ bs.map g = l.map gh := by
  intro l
  induction l with
  | nil => intro _; exact ⟨[], rfl, rfl⟩
  | cons a l ih =>
    intro h
    obtain ⟨b, hb, hgb⟩ := h a (List.mem_cons_self a l)
    obtain ⟨bs, hbs, hmap⟩ := ih (fun x hx => h x (List.mem_cons_of_mem a hx))
    refine ⟨b :: bs, ?_, ?_⟩
    · unfold mapE; rw [hb, hbs]
    · simp [hmap, hgb]

/-- On patterns free of regex metacharacters, matching at a position is the
literal block comparison. -/
theorem matchHere_eq_litHere :
    ∀ pat : Str, pat.all (fun c => !isMetaChar c) = true →
      ∀ s, matchHere pat s = litHere pat s := by
  intro pat
  induction pat with
  | nil => intro _ s; cases s <;> rfl
  | cons p ps ih =>
    intro hpat s
    have hall : isMetaChar p = false ∧ ps.all (fun c => !isMetaChar c) = true := by
      simpa using hpat
    have hdot : (p == '.') = false := by
      rw [beq_eq_false_iff_ne]
      intro hp
      rw [hp] at hall
      exact absurd hall.1 (by decide)
    cases s with
    | nil => rfl
    | cons c cs =>
      show ((p == '.' || p == c) && matchHere ps cs) = ((p == c) && litHere ps cs)
      rw [hdot, Bool.false_or, ih hall.2 cs]

/-- On patterns free of regex metacharacters, re.search is plain substring
containment. -/
theorem reSearch_eq_containsSub :
    ∀ pat : Str, pat.all (fun c => !isMetaChar c) = true →
      ∀ s, reSearch pat s = containsSub pat s := by
  intro pat hpat s
  induction s with
  | nil => exact matchHere_eq_litHere pat hpat []
  | cons c cs ih =>
    show (matchHere pat (c :: cs) || reSearch pat cs)
        = (litHere pat (c :: cs) || containsSub pat cs)
    rw [matchHere_eq_litHere pat hpat, ih]

/-- Inversion of the module-listing entry builder: a successful build reveals
the key_phrases text and determines every output field from the row. -/
theorem buildVideo_ok_inv (n : Nat) (r : VideoRecord) (v : VideoOut) :
    buildVideo n r = .ok v →
    ∃ k, r.key_phrases = some k ∧
      v = ⟨r.video, titleOf n r.video, transcript_preview k, S3_BASE_URL ++ r.video⟩ := by
  intro h
  cases hk : r.key_phrases with
  | none => simp [buildVideo, previewE, hk] at h
  | some k =>
    simp [buildVideo, previewE, hk] at h
    exact ⟨k, rfl, h.symm⟩

/-- Inversion of the search entry builder: a successful build reveals the
key_phrases text behind the transcript field and the identifier field. -/
theorem buildSearch_ok_inv (r : VideoRecord) (v : SearchOut) :
    buildSearch r = .ok v →
    ∃ k, r.key_phrases = some k ∧
      v.transcript = transcript_preview k ∧ v.id = r.video := by
  intro h
  cases hk : r.key_phrases with
  | none => simp [buildSearch, previewE, hk] at h
  | some k =>
    simp [buildSearch, previewE, hk] at h
    cases hmn : pyInt ((r.video.drop 3).take 2) with
    | error e => rw [hmn] at h; simp at h
    | ok mn =>
      rw [hmn] at h
      simp at h
      exact ⟨k, rfl, by rw [← h], by rw [← h]⟩

/-- The search entry builder succeeds on a row with a present key_phrases
cell and a numeric module slice, and keeps the video name as identifier. -/
theorem buildSearch_wf_ok (r : VideoRecord) (k : Str)
    (hk : r.key_phrases = some k) (hd : moduleDigitsOk r.video = true) :
    ∃ b, buildSearch r = .ok b ∧ SearchOut.id b = VideoRecord.video r := by
  have hd2 : ((r.video.drop 3).take 2).isEmpty = false ∧
      ((r.video.drop 3).take 2).all Char.isDigit = true := by
    simpa [moduleDigitsOk] using hd
  have hmn : pyInt ((r.video.drop 3).take 2)
      = .ok (((r.video.drop 3).take 2).foldl (fun a c => 10 * a + (c.toNat - 48)) 0) := by
    simp [pyInt, hd2.1, hd2.2]
  refine ⟨⟨r.video, searchTitleOf r.video, transcript_preview k, S3_BASE_URL ++ r.video,
          moduleLabelOf (((r.video.drop 3).take 2).foldl (fun a c => 10 * a + (c.toNat - 48)) 0)⟩,
         ?_, rfl⟩
  simp [buildSearch, previewE, hk, hmn]

/-- With video names unique, the exact-equality filter of the download
handler returns exactly the one matching row. -/
theorem filter_video_eq_singleton :
    ∀ (df : DataFrame) (r : VideoRecord) (vid : Str),
      (df.map VideoRecord.video).Nodup → r ∈ df → r.video = vid →
      df.filter (fun x => x.video == vid) = [r] := by
  intro df
  induction df with
  | nil => intro r vid _ hr; simp at hr
  | cons a l ih =>
    intro r vid hnd hr hv
    rw [List.map_cons, List.nodup_cons] at hnd
    rcases List.mem_cons.mp hr with h | h
    · subst h
      rw [List.filter_cons, if_pos (by rw [hv]; exact beq_self_eq_true vid)]
      have hnil : l.filter (fun x => x.video == vid) = [] := by
        rw [List.filter_eq_nil_iff]
        intro x hx hxv
        exact hnd.1 (hv ▸ (beq_iff_eq.mp hxv) ▸ List.mem_map_of_mem VideoRecord.video hx)
      rw [hnil]
    · have hav : (a.video == vid) = false := by
        rw [beq_eq_false_iff_ne]
        intro hveq
        exact hnd.1 (hveq ▸ hv ▸ List.mem_map_of_mem VideoRecord.video h)
      rw [List.filter_cons, if_neg (by simp [hav])]
      exact ih r vid hnd.2 h hv

/-- Inversion of the module-listing route: a 200 response lists, for each
entry, a dataset row with a present key_phrases cell from which every field
of the entry is derived. -/
theorem get_videos_ok_inv :
    ∀ (df : DataFrame) (n : Nat) (vs : List VideoOut),
      get_videos df n = .resp 200 (.videosJson vs) →
      ∀ v ∈ vs, ∃ r, r ∈ df ∧ ∃ k, r.key_phrases = some k ∧
        v = ⟨r.video, titleOf n r.video, transcript_preview k, S3_BASE_URL ++ r.video⟩ := by
  intro df n vs hroute v hv
  unfold get_videos at hroute
  cases hm : mapE (buildVideo n) (get_module_videos df n) with
  | error e => rw [hm] at hroute; simp at hroute
  | ok vs2 =>
    rw [hm] at hroute
    simp at hroute
    subst hroute
    obtain ⟨a, ha, hb⟩ := mapE_ok_mem (buildVideo n) _ vs2 hm v hv
    obtain ⟨k, hk, hveq⟩ := buildVideo_ok_inv n a v hb
    exact ⟨a, List.mem_of_mem_filter ha, k, hk, hveq⟩

/-- Inversion of the search route: a 200 response lists, for each entry, a
dataset row with a present key_phrases cell whose preview is the transcript
field. -/
theorem search_videos_ok_inv :
    ∀ (df : DataFrame) (q : Str) (vs : List SearchOut),
      search_videos df q = .resp 200 (.searchJson vs) →
      ∀ v ∈ vs, ∃ r, r ∈ df ∧ ∃ k, r.key_phrases = some k ∧
        v.transcript = transcript_preview k := by
  intro df q vs hroute v hv
  unfold search_videos at hroute
  split at hroute
  · simp at hroute
    subst hroute
    simp at hv
  · cases hm : mapE buildSearch (df.filter (searchMask (lowerStr q))) with
    | error e => rw [hm] at hroute; simp at hroute
    | ok vs2 =>
      rw [hm] at hroute
      simp at hroute
      subst hroute
      obtain ⟨a, ha, hb⟩ := mapE_ok_mem buildSearch _ vs2 hm v hv
      obtain ⟨k, hk, hvt, _⟩ := buildSearch_ok_inv a v hb
      exact ⟨a, List.mem_of_mem_filter ha, k, hk, hvt⟩

/-! Claim theorems. -/

/-- C1: for every dataset and every module number below 100, the module
listing selects exactly the rows whose video field starts (first five
characters) with the tag Mod followed by the number zero-padded to two
digits, keeping the dataset row order, and no other row appears. -/
theorem C1_listByModule_filter :
    ∀ (df : DataFrame) (n : Nat), n < 100 →
      get_module_videos df n
        = df.filter (fun r => r.video.take 5 == specModuleTag n) := by
  intro df n hn
  have h : moduleTag n = specModuleTag n := by
    rw [moduleTag, specModuleTag, pyFormat02_eq_digits n hn]
  rw [get_module_videos, h]

/-- Witness for C1 at module number 1 on a mixed dataset: exactly the two
module-1 rows survive, in order. -/
theorem C1_listByModule_filter_witness :
    get_module_videos wdf 1
      = [exRec, ⟨"Mod01_Tail.mp4".toList, some ("u".toList), some ("u".toList)⟩] := by
  rw [C1_listByModule_filter wdf 1 (by decide)]
  decide

/-- C2 counterexample: with the query a.b, whose dot is a regex wildcard, the
search endpoint returns the row Mod01_axb.mp4 even though neither lowercased
field contains a.b as a plain substring, refuting the claim that matching is
plain substring containment for every query. -/
theorem C2_regex_counterexample :
    search_videos cdf2 ("a.b".toList) = .resp 200 (.searchJson [cOut2]) ∧
    containsSub ("a.b".toList) (lowerStr ("Mod01_axb.mp4".toList)) = false ∧
    containsSub ("a.b".toList) (lowerStr ("k".toList)) = false := by
  decide

/-- C2 amended: the query is interpreted as a regular expression (the pandas
str.contains default); for a non-empty query whose lowercased form has no
regex metacharacter, and a dataset whose rows all carry a key_phrases text
and a numeric module slice, search returns a 200 response listing exactly the
rows whose lowercased video or key_phrases contains the lowercased query as
a substring, in dataset row order. -/
theorem C2_search_literal_substring :
    ∀ (df : DataFrame) (q : Str),
      lowerStr q ≠ [] →
      (lowerStr q).all (fun c => !isMetaChar c) = true →
      (∀ r ∈ df, r.key_phrases.isSome = true ∧ moduleDigitsOk r.video = true) →
      ∃ vs, search_videos df q = .resp 200 (.searchJson vs) ∧
        vs.map SearchOut.id
          = (df.filter (specSearchMatch (lowerStr q))).map VideoRecord.video := by
  intro df q hne hlit hwf
  have hmask : ∀ r ∈ df, searchMask (lowerStr q) r = specSearchMatch (lowerStr q) r := by
    intro r _
    unfold searchMask specSearchMatch
    cases r.key_phrases with
    | none => simp [reSearch_eq_containsSub _ hlit]
    | some k => simp [reSearch_eq_containsSub _ hlit]
  have hfilter : df.filter (searchMask (lowerStr q))
      = df.filter (specSearchMatch (lowerStr q)) := List.filter_congr hmask
  have hbuild : ∀ r ∈ df.filter (specSearchMatch (lowerStr q)),
      ∃ b, buildSearch r = .ok b ∧ SearchOut.id b = VideoRecord.video r := by
    intro r hr
    have hrdf : r ∈ df := List.mem_of_mem_filter hr
    obtain ⟨hks, hd⟩ := hwf r hrdf
    obtain ⟨k, hk⟩ := Option.isSome_iff_exists.mp hks
    exact buildSearch_wf_ok r k hk hd
  obtain ⟨vs, hok, hmap⟩ := mapE_ok_map buildSearch SearchOut.id VideoRecord.video _ hbuild
  refine ⟨vs, ?_, hmap⟩
  unfold search_videos
  rw [if_neg (by simp [List.isEmpty_iff, hne]), hfilter, hok]

/-- Witness for C2 on the worked example dataset with the query supervised. -/
theorem C2_search_literal_substring_witness :
    ∃ vs, search_videos [exRec] ("supervised".toList) = .resp 200 (.searchJson vs) ∧
      vs.map SearchOut.id
        = (([exRec] : DataFrame).filter
            (specSearchMatch (lowerStr ("supervised".toList)))).map VideoRecord.video :=
  C2_search_literal_substring [exRec] ("supervised".toList) (by decide) (by decide) (by decide)

/-- C3 counterexample: a query of three spaces is truthy in Python, so the
endpoint runs a full search and returns the row whose key_phrases contains
three consecutive spaces, refuting the claim that whitespace-only queries
return the empty result. -/
theorem C3_whitespace_counterexample :
    search_videos df3 ("   ".toList) = .resp 200 (.searchJson [out3]) ∧
    ([out3] : List SearchOut) ≠ [] := by
  decide

/-- C3 amended: only the exactly-empty query short-circuits to an empty
result list for every dataset; a whitespace-only query is processed as an
ordinary search, here returning a match. -/
theorem C3_empty_query_amended :
    (∀ df : DataFrame, search_videos df [] = .resp 200 (.searchJson [])) ∧
    search_videos df3 ("   ".toList) = .resp 200 (.searchJson [out3]) := by
  exact ⟨fun df => rfl, by decide⟩

/-- C4: the transcript preview of every returned record is the key_phrases
text itself when its length is at most 200, and its first 200 characters
followed by the three-character ellipsis (total length 203) otherwise; every
entry a 200 response of either endpoint carries has its transcript field
equal to the preview of the key_phrases text of its dataset row. -/
theorem C4_transcript_preview :
    (∀ k : Str, k.length ≤ 200 → transcript_preview k = k) ∧
    (∀ k : Str, 200 < k.length →
      transcript_preview k = k.take 200 ++ ellipsis ∧ (transcript_preview k).length = 203) ∧
    (∀ (df : DataFrame) (n : Nat) (vs : List VideoOut),
      get_videos df n = .resp 200 (.videosJson vs) →
      ∀ v ∈ vs, ∃ r, r ∈ df ∧ ∃ k, r.key_phrases = some k ∧
        v.transcript = transcript_preview k) ∧
    (∀ (df : DataFrame) (q : Str) (vs : List SearchOut),
      search_videos df q = .resp 200 (.searchJson vs) →
      ∀ v ∈ vs, ∃ r, r ∈ df ∧ ∃ k, r.key_phrases = some k ∧
        v.transcript = transcript_preview k) := by
  refine ⟨?_, ?_, ?_, search_videos_ok_inv⟩
  · intro k hk
    unfold transcript_preview
    rw [if_neg (by omega)]
  · intro k hk
    unfold transcript_preview
    rw [if_pos hk]
    refine ⟨rfl, ?_⟩
    simp [ellipsis]
    omega
  · intro df n vs hroute v hv
    obtain ⟨r, hr, k, hk, hveq⟩ := get_videos_ok_inv df n vs hroute v hv
    exact ⟨r, hr, k, hk, by rw [hveq]⟩

/-- Witness for C4: a short text is returned verbatim, a 201-character text
is cut to 200 characters plus the ellipsis for a total of 203, and the
worked-example 200 response carries the preview of its row. -/
theorem C4_transcript_preview_witness :
    transcript_preview ("abc".toList) = "abc".toList ∧
    (transcript_preview w201 = List.replicate 200 'a' ++ ellipsis ∧
      (transcript_preview w201).length = 203) ∧
    (∃ r, r ∈ [exRec] ∧ ∃ k, r.key_phrases = some k ∧
      exOut.transcript = transcript_preview k) := by
  refine ⟨C4_transcript_preview.1 ("abc".toList) (by decide), ⟨?_, ?_⟩, ?_⟩
  · exact (C4_transcript_preview.2.1 w201 (by decide)).1.trans (by decide)
  · exact (C4_transcript_preview.2.1 w201 (by decide)).2
  · exact C4_transcript_preview.2.2.1 [exRec] 1 [exOut] (by decide) exOut (by decide)

/-- C5 counterexample: for the video Mod01_Mod01_Extra.mp4, the module
listing returns the title with both occurrences of Mod01 removed (the result
of Python replace), which differs from removing only the leading occurrence
as the claim states. -/
theorem C5_title_counterexample :
    get_videos cdf5 1 = .resp 200 (.videosJson [out5]) ∧
    specTitleOnce 1 v5 = "_Mod01_Extra".toList ∧
    out5.title ≠ specTitleOnce 1 v5 := by
  decide

/-- C5 amended: every entry of a 200 module-listing response keeps the raw
video name as identifier, has the object-storage base URL concatenated with
that name as url, and has as title the video name with every occurrence of
the module tag removed, then every occurrence of .mp4 removed, then
whitespace stripped; on the worked example this yields the title _WhatIsML
(with the separating underscore kept). -/
theorem C5_title_amended :
    (∀ (df : DataFrame) (n : Nat) (vs : List VideoOut),
       get_videos df n = .resp 200 (.videosJson vs) →
       ∀ v ∈ vs, ∃ r, r ∈ df ∧ v.id = r.video ∧ v.url = S3_BASE_URL ++ r.video ∧
         v.title = titleOf n r.video) ∧
    get_videos [exRec] 1 = .resp 200 (.videosJson [exOut]) := by
  refine ⟨?_, by decide⟩
  intro df n vs hroute v hv
  obtain ⟨r, hr, k, hk, hveq⟩ := get_videos_ok_inv df n vs hroute v hv
  exact ⟨r, hr, by rw [hveq], by rw [hveq], by rw [hveq]⟩

/-- Witness for C5 applying the general part to the worked example. -/
theorem C5_title_amended_witness :
    ∃ r, r ∈ [exRec] ∧ exOut.id = r.video ∧ exOut.url = S3_BASE_URL ++ r.video ∧
      exOut.title = titleOf 1 r.video :=
  C5_title_amended.1 [exRec] 1 [exOut] C5_title_amended.2 exOut (by decide)

/-- C6: the download lookup answers the not-found JSON error exactly when no
row has a video field equal, character for character and case-sensitively, to
the requested identifier; in particular the lowercased query mod01_intro.mp4
does not match the stored Mod01_Intro.mp4. -/
theorem C6_download_not_found :
    (∀ (df : DataFrame) (vid : Str),
       download_transcript df vid = .resp 404 (.errorJson notFoundMsg) ↔
         ∀ r ∈ df, r.video ≠ vid) ∧
    download_transcript cdf6 ("mod01_intro.mp4".toList)
      = .resp 404 (.errorJson notFoundMsg) := by
  refine ⟨?_, by decide⟩
  intro df vid
  have hchar : download_transcript df vid = .resp 404 (.errorJson notFoundMsg) ↔
      df.filter (fun r => r.video == vid) = [] := by
    unfold download_transcript
    cases hf : df.filter (fun r => r.video == vid) with
    | nil => simp
    | cons r l =>
      cases hk : r.key_phrases with
      | some t => simp [hk]
      | none => simp [hk]
  rw [hchar, List.filter_eq_nil_iff]
  simp

/-- C7: with unique video names, downloading an existing identifier streams
exactly the key_phrases text of its row, under the attachment name formed by
the identifier and the suffix _transcript.txt. -/
theorem C7_download_roundtrip :
    ∀ (df : DataFrame) (vid : Str) (r : VideoRecord) (k : Str),
      (df.map VideoRecord.video).Nodup → r ∈ df → r.video = vid →
      r.key_phrases = some k →
      download_transcript df vid = .resp 200 (.fileAttachment (vid ++ txtSuffix) k) := by
  intro df vid r k hnd hr hv hk
  unfold download_transcript
  rw [filter_video_eq_singleton df r vid hnd hr hv]
  show (match r.key_phrases with
        | some t => HttpResult.resp 200 (.fileAttachment (vid ++ txtSuffix) t)
        | none => HttpResult.crash writeTypeErrMsg) = _
  rw [hk]

/-- Witness for C7 on the worked example row. -/
theorem C7_download_roundtrip_witness :
    download_transcript [exRec] exVideo
      = .resp 200 (.fileAttachment (exVideo ++ txtSuffix) exKey) :=
  C7_download_roundtrip [exRec] exVideo exRec exKey (by decide) (by decide) rfl rfl

/-- C8 counterexample: a parsed table carrying only the video column is
returned unchanged by the loader, not replaced by the empty dataset,
refuting the claim that a missing expected column yields the empty
dataset. -/
theorem C8_load_counterexample :
    load_data (.ok frameVideoOnly) = frameVideoOnly ∧ frameVideoOnly ≠ emptyFrame := by
  decide

/-- C8 amended: the loader never propagates a failure; a read or parse error
yields the empty dataset with the three expected columns, as does a parsed
table without a video column (the loader touches that column while
printing); but a parsed table that does have a video column is returned
unchanged, even when the other expected columns are missing. -/
theorem C8_load_amended :
    (∀ e : String, load_data (.error e) = emptyFrame) ∧
    (∀ f : Frame, f.columns.contains videoColName = false → load_data (.ok f) = emptyFrame) ∧
    (∀ f : Frame, f.columns.contains videoColName = true → load_data (.ok f) = f) := by
  refine ⟨fun e => rfl, ?_, ?_⟩
  · intro f hf
    show (if f.columns.contains videoColName then f else emptyFrame) = emptyFrame
    rw [hf]
    simp
  · intro f hf
    show (if f.columns.contains videoColName then f else emptyFrame) = f
    rw [hf]
    simp

/-- Witness for C8 on a table without a video column and on a complete
table. -/
theorem C8_load_amended_witness :
    load_data (.ok frameNoVideo) = emptyFrame ∧ load_data (.ok frameGood) = frameGood :=
  ⟨C8_load_amended.2.1 frameNoVideo (by decide), C8_load_amended.2.2 frameGood (by decide)⟩

/-- C9 counterexample: downloading a row whose key_phrases cell is missing
raises out of the handler (no try/except in the download endpoint) instead
of producing a JSON error response, refuting the claim that all three
endpoints surface internal failures as JSON errors. -/
theorem C9_crash_counterexample :
    download_transcript cdf9 ("v.mp4".toList) = .crash writeTypeErrMsg ∧
    HttpResult.crash writeTypeErrMsg ≠ .resp 500 (.errorJson writeTypeErrMsg) := by
  decide

/-- C9 amended: the module-listing and search handlers are wrapped in
try/except and always answer either a 200 payload or a 500 JSON error, never
letting an exception escape; the download handler has no such wrapper and an
internal failure there escapes as an exception. -/
theorem C9_endpoints_amended :
    (∀ (df : DataFrame) (n : Nat),
       (∃ vs, get_videos df n = .resp 200 (.videosJson vs)) ∨
       (∃ e, get_videos df n = .resp 500 (.errorJson e))) ∧
    (∀ (df : DataFrame) (q : Str),
       (∃ vs, search_videos df q = .resp 200 (.searchJson vs)) ∨
       (∃ e, search_videos df q = .resp 500 (.errorJson e))) ∧
    download_transcript cdf9 ("v.mp4".toList) = .crash writeTypeErrMsg := by
  refine ⟨?_, ?_, by decide⟩
  · intro df n
    unfold get_videos
    cases hm : mapE (buildVideo n) (get_module_videos df n) with
    | ok vs => exact Or.inl ⟨vs, rfl⟩
    | error e => exact Or.inr ⟨e, rfl⟩
  · intro df q
    unfold search_videos
    split
    · exact Or.inl ⟨[], rfl⟩
    · cases hm : mapE buildSearch (df.filter (searchMask (lowerStr q))) with
      | ok vs => exact Or.inl ⟨vs, rfl⟩
      | error e => exact Or.inr ⟨e, rfl⟩

/-- C10 counterexample: on a dataset whose only row has a missing
key_phrases cell and a video name containing the query abc, search answers a
500 JSON error (building the transcript preview raises inside the loop), so
the record does not appear in any result list, refuting the claim that it
would. -/
theorem C10_nan_counterexample :
    search_videos cdf10 ("abc".toList) = .resp 500 (.errorJson typeErrMsg) ∧
    reSearch (lowerStr ("abc".toList)) (lowerStr ("abc.mp4".toList)) = true := by
  decide

/-- C10 amended: the na=False mask treats a missing key_phrases cell as
non-matching, so the filtering stage never fails; a row with a missing
key_phrases cell whose video does not match the query is silently dropped
and the response is unchanged, while such a row whose video does match makes
the whole request answer a 500 JSON error. -/
theorem C10_nan_amended :
    (∀ (df1 df2 : DataFrame) (r : VideoRecord) (q : Str),
       r.key_phrases = none →
       reSearch (lowerStr q) (lowerStr r.video) = false →
       search_videos (df1 ++ r :: df2) q = search_videos (df1 ++ df2) q) ∧
    (∀ (df : DataFrame) (r : VideoRecord) (q : Str),
       r ∈ df → r.key_phrases = none → lowerStr q ≠ [] →
       reSearch (lowerStr q) (lowerStr r.video) = true →
       ∃ e, search_videos df q = .resp 500 (.errorJson e)) := by
  constructor
  · intro df1 df2 r q hk hvm
    have hmask : searchMask (lowerStr q) r = false := by
      simp [searchMask, hk, hvm]
    have hfeq : (df1 ++ r :: df2).filter (searchMask (lowerStr q))
        = (df1 ++ df2).filter (searchMask (lowerStr q)) := by
      simp [List.filter_append, List.filter_cons, hmask]
    unfold search_videos
    rw [hfeq]
  · intro df r q hmem hk hne hvm
    have hmask : searchMask (lowerStr q) r = true := by
      simp [searchMask, hvm]
    have hrf : r ∈ df.filter (searchMask (lowerStr q)) :=
      List.mem_filter.mpr ⟨hmem, hmask⟩
    have hbr : buildSearch r = .error typeErrMsg := by
      simp [buildSearch, previewE, hk]
    obtain ⟨e2, he2⟩ := mapE_error_of_mem buildSearch typeErrMsg _ r hrf hbr
    refine ⟨e2, ?_⟩
    unfold search_videos
    rw [if_neg (by simp [List.isEmpty_iff, hne]), he2]

/-- Witness for C10: dropping the non-matching missing-cell row leaves the
response unchanged, and the matching missing-cell row forces a 500 error. -/
theorem C10_nan_amended_witness :
    search_videos cdf9 ("zz".toList) = search_videos [] ("zz".toList) ∧
    ∃ e, search_videos cdf10 ("abc".toList) = .resp 500 (.errorJson e) :=
  ⟨C10_nan_amended.1 [] [] ⟨"v.mp4".toList, none, none⟩ ("zz".toList) rfl (by decide),
   C10_nan_amended.2 cdf10 ⟨"abc.mp4".toList, none, none⟩ ("abc".toList)
     (by decide) rfl (by decide) (by decide)⟩

end AppF
